import Mathlib

/-!
# Verification of the `jules-scratch/verification` browser scripts

The repository consists of nine Playwright scripts that drive a static
component-showcase page (`basecoat-clone-ui/index.html`), perform scripted
interactions and assertions, and capture one screenshot each.

This development embeds each script as data (a `Script`: an ordered list of
`Step`s over `Locator`s, transcribed statement by statement from the Python
sources) together with:

* a trace semantics for one script run (`runScript`), reflecting the source
  structure: statements execute in order, the first failing statement raises
  and aborts the rest of the body, and the `with sync_playwright()` block
  guarantees release of the browser resources on every exit path;
* a document-state semantics (`execSteps` over a `DomDoc`), used for the
  concrete dialog scenario and for idempotence of CSS assertions;
* a polling model for `to_have_css` (`pollCss`);
* a filesystem model (`runFs`) for the artifacts written by a sequence of
  script runs.

Parts of the system that are not in the repository (the Playwright runtime,
the document under test, the Python interpreter's exit behaviour) are
modelled from the specification; each such definition carries a doc comment
beginning `Modelled from the spec:`.
-/

/-- A Playwright locator, as built by the scripts: `get_by_role` (with
optional accessible name and `exact` flag), `get_by_text`, `get_by_label`,
`page.locator(cssSelector)`, sub-locators scoped under a previously built
locator (`base.locator(sel)`, `base.get_by_role(...)`, `base.get_by_text(...)`)
and `.first`. -/
inductive Locator where
  | role (r : String) (name : Option String) (exact : Bool)
  | text (t : String)
  | label (t : String)
  | css (sel : String)
  | sub (base : Locator) (sel : String)
  | subRole (base : Locator) (r : String) (name : Option String) (exact : Bool)
  | subText (base : Locator) (t : String)
  | first (base : Locator)
deriving Repr, DecidableEq

/-- One statement of a verification script: navigation to the target
document, viewport configuration, an action (`click`/`hover`), a polling
assertion (`expect(...).to_be_visible()`, `.not_to_be_visible()`,
`.to_have_css(prop, value)`), a fixed wait (`page.wait_for_timeout(ms)`),
or a screenshot capture (`page.screenshot(path=..., full_page=...)`). -/
inductive Step where
  | nav
  | setViewport (width height : Nat)
  | click (l : Locator)
  | hover (l : Locator)
  | assertVisible (l : Locator)
  | assertNotVisible (l : Locator)
  | assertCss (l : Locator) (prop expected : String)
  | waitMs (ms : Nat)
  | screenshot (path : String) (fullPage : Bool)
deriving Repr, DecidableEq

/-- One verification script: its file name, the scenario identifier (the
stem of the artifact it writes), whether the browser is launched with an
explicit `headless=True`, the relative path handed to `os.path.abspath` for
the target document, and the ordered statements of its body. -/
structure Script where
  file : String
  id : String
  headlessArg : Bool
  docRel : String
  steps : List Step
deriving Repr, DecidableEq

/-- `verify_all_components.py`: asserts the section headings of the
showcase page, opens the select popover, and captures a full-page
screenshot. -/
def scriptAllComponents : Script :=
  { file := "verify_all_components.py"
    id := "verification_full_library"
    headlessArg := false
    docRel := "basecoat-clone-ui/index.html"
    steps :=
      [ .nav
      , .setViewport 1280 3200
      , .assertVisible (.role "heading" (some "Button") true)
      , .assertVisible (.role "heading" (some "Accordion") true)
      , .assertVisible (.role "heading" (some "Dialog") true)
      , .assertVisible (.role "heading" (some "Tooltip") true)
      , .assertVisible (.role "heading" (some "Toast") true)
      , .assertVisible (.role "heading" (some "Card") true)
      , .assertVisible (.role "heading" (some "Forms") true)
      , .assertVisible (.role "heading" (some "Advanced Forms & Inputs") true)
      , .assertVisible (.role "heading" (some "Alert") true)
      , .assertVisible (.role "heading" (some "Avatar") true)
      , .assertVisible (.role "heading" (some "Badge") true)
      , .assertVisible (.css ".select-trigger")
      , .click (.css ".select-trigger")
      , .assertVisible (.css ".select-popover")
      , .screenshot "jules-scratch/verification/verification_full_library.png" true ] }

/-- `verify_components.py`: navigates, waits a fixed 1000 ms for fonts and
layout to settle, and captures a full-page screenshot. -/
def scriptComponents : Script :=
  { file := "verify_components.py"
    id := "verification"
    headlessArg := true
    docRel := "basecoat-clone-ui/index.html"
    steps :=
      [ .nav
      , .waitMs 1000
      , .screenshot "jules-scratch/verification/verification.png" true ] }

/-- `verify_display_components.py`: asserts the alert, avatar and badge
components, then captures a full-page screenshot. -/
def scriptDisplayComponents : Script :=
  { file := "verify_display_components.py"
    id := "verification_display"
    headlessArg := false
    docRel := "basecoat-clone-ui/index.html"
    steps :=
      [ .nav
      , .setViewport 1280 2000
      , .assertVisible (.first (.css ".alert"))
      , .assertVisible (.subRole (.first (.css ".alert")) "heading" (some "Alert Title") false)
      , .assertVisible (.css "img[alt=\"User Avatar\"]")
      , .assertVisible (.text "CN")
      , .assertVisible (.text "Default")
      , .assertVisible (.text "Primary")
      , .screenshot "jules-scratch/verification/verification_display.png" true ] }

/-- `verify_full_library.py`: exercises the dialog, tooltip, toast, select
and resizable components, then captures a full-page screenshot. -/
def scriptFullLibrary : Script :=
  { file := "verify_full_library.py"
    id := "verification_final"
    headlessArg := false
    docRel := "basecoat-clone-ui/index.html"
    steps :=
      [ .nav
      , .setViewport 1280 4000
      , .click (.role "button" (some "Open Dialog") false)
      , .assertVisible (.role "dialog" none false)
      , .assertVisible (.subRole (.role "dialog" none false) "heading" (some "Dialog Title") false)
      , .click (.subRole (.role "dialog" none false) "button" (some "Close") false)
      , .assertNotVisible (.role "dialog" none false)
      , .hover (.role "button" (some "Hover me") false)
      , .assertVisible (.text "This is a tooltip!")
      , .click (.role "button" (some "Show Toast") false)
      , .assertVisible (.text "Your message has been sent.")
      , .click (.css ".select-trigger")
      , .assertVisible (.css ".select-popover")
      , .click (.subText (.css ".select-popover") "Apple")
      , .assertVisible (.subText (.css ".select-trigger") "Apple")
      , .assertNotVisible (.css ".select-popover")
      , .assertVisible (.sub (.sub (.label "Resizable Panel") "..") ".resizable")
      , .screenshot "jules-scratch/verification/verification_final.png" true ] }

/-- `verify_full_library_final.py`: like `verify_full_library.py` but
closes the tooltip and the select popover again before the capture, with a
final fixed 1000 ms wait for animations. -/
def scriptFullLibraryFinal : Script :=
  { file := "verify_full_library_final.py"
    id := "verification_final"
    headlessArg := false
    docRel := "basecoat-clone-ui/index.html"
    steps :=
      [ .nav
      , .setViewport 1280 4000
      , .click (.role "button" (some "Open Dialog") false)
      , .assertVisible (.role "dialog" none false)
      , .click (.subRole (.role "dialog" none false) "button" (some "Close") false)
      , .assertNotVisible (.role "dialog" none false)
      , .hover (.role "button" (some "Hover me") false)
      , .assertVisible (.text "This is a tooltip!")
      , .hover (.role "heading" (some "Component Showcase") false)
      , .assertNotVisible (.text "This is a tooltip!")
      , .click (.role "button" (some "Show Toast") false)
      , .assertVisible (.text "Your message has been sent.")
      , .click (.css ".select-trigger")
      , .assertVisible (.css ".select-popover")
      , .click (.role "heading" (some "Component Showcase") false)
      , .assertNotVisible (.css ".select-popover")
      , .waitMs 1000
      , .screenshot "jules-scratch/verification/verification_final.png" true ] }

/-- `verify_full_library_final_v2.py`: like the previous variant but with
two extra fixed 200 ms waits inserted before the two `not_to_be_visible`
assertions, to wait out the CSS fade transitions. -/
def scriptFullLibraryFinalV2 : Script :=
  { file := "verify_full_library_final_v2.py"
    id := "verification_final"
    headlessArg := false
    docRel := "basecoat-clone-ui/index.html"
    steps :=
      [ .nav
      , .setViewport 1280 4000
      , .click (.role "button" (some "Open Dialog") false)
      , .assertVisible (.role "dialog" none false)
      , .click (.subRole (.role "dialog" none false) "button" (some "Close") false)
      , .assertNotVisible (.role "dialog" none false)
      , .hover (.role "button" (some "Hover me") false)
      , .assertVisible (.text "This is a tooltip!")
      , .hover (.role "heading" (some "Component Showcase") false)
      , .waitMs 200
      , .assertNotVisible (.text "This is a tooltip!")
      , .click (.role "button" (some "Show Toast") false)
      , .assertVisible (.text "Your message has been sent.")
      , .click (.css ".select-trigger")
      , .assertVisible (.css ".select-popover")
      , .click (.role "heading" (some "Component Showcase") false)
      , .waitMs 200
      , .assertNotVisible (.css ".select-popover")
      , .waitMs 1000
      , .screenshot "jules-scratch/verification/verification_final.png" true ] }

/-- `verify_full_library_final_v3.py`: like v2 but the two transition waits
are replaced by `to_have_css("opacity", "0")` polling assertions. -/
def scriptFullLibraryFinalV3 : Script :=
  { file := "verify_full_library_final_v3.py"
    id := "verification_final"
    headlessArg := false
    docRel := "basecoat-clone-ui/index.html"
    steps :=
      [ .nav
      , .setViewport 1280 4000
      , .click (.role "button" (some "Open Dialog") false)
      , .assertVisible (.role "dialog" none false)
      , .click (.subRole (.role "dialog" none false) "button" (some "Close") false)
      , .assertNotVisible (.role "dialog" none false)
      , .hover (.role "button" (some "Hover me") false)
      , .assertVisible (.text "This is a tooltip!")
      , .hover (.role "heading" (some "Component Showcase") false)
      , .assertCss (.text "This is a tooltip!") "opacity" "0"
      , .click (.role "button" (some "Show Toast") false)
      , .assertVisible (.text "Your message has been sent.")
      , .click (.css ".select-trigger")
      , .assertVisible (.css ".select-popover")
      , .click (.role "heading" (some "Component Showcase") false)
      , .assertCss (.css ".select-popover") "opacity" "0"
      , .waitMs 1000
      , .screenshot "jules-scratch/verification/verification_final.png" true ] }

/-- `verify_layout_components.py`: asserts the parts of the layout and
structure section, then captures a full-page screenshot. The section is
addressed relative to its heading via a parent step (`locator('..')`). -/
def scriptLayoutComponents : Script :=
  { file := "verify_layout_components.py"
    id := "verification_layout"
    headlessArg := false
    docRel := "basecoat-clone-ui/index.html"
    steps :=
      [ .nav
      , .setViewport 1280 4000
      , .assertVisible (.sub (.sub (.sub (.role "heading" (some "Layout & Structure") true) "..") ".component-preview") ".aspect-ratio-16-9")
      , .assertVisible (.sub (.sub (.sub (.role "heading" (some "Layout & Structure") true) "..") ".component-preview") ".separator")
      , .assertVisible (.sub (.sub (.sub (.role "heading" (some "Layout & Structure") true) "..") ".component-preview") ".resizable")
      , .assertVisible (.sub (.sub (.sub (.role "heading" (some "Layout & Structure") true) "..") ".component-preview") ".scroll-area")
      , .assertVisible (.subRole (.sub (.sub (.role "heading" (some "Layout & Structure") true) "..") ".component-preview") "table" none false)
      , .screenshot "jules-scratch/verification/verification_layout.png" true ] }

/-- `verify_page_structure.py`: asserts the five top-level section
headings, then captures a full-page screenshot. -/
def scriptPageStructure : Script :=
  { file := "verify_page_structure.py"
    id := "verification_structure"
    headlessArg := false
    docRel := "basecoat-clone-ui/index.html"
    steps :=
      [ .nav
      , .setViewport 1280 4000
      , .assertVisible (.role "heading" (some "Display") true)
      , .assertVisible (.role "heading" (some "Buttons & Controls") true)
      , .assertVisible (.role "heading" (some "Form Inputs") true)
      , .assertVisible (.role "heading" (some "Overlays & Feedback") true)
      , .assertVisible (.role "heading" (some "Layout & Structure") true)
      , .screenshot "jules-scratch/verification/verification_structure.png" true ] }

/-- All nine verification scripts of the repository. -/
def allScripts : List Script :=
  [ scriptAllComponents
  , scriptComponents
  , scriptDisplayComponents
  , scriptFullLibrary
  , scriptFullLibraryFinal
  , scriptFullLibraryFinalV2
  , scriptFullLibraryFinalV3
  , scriptLayoutComponents
  , scriptPageStructure ]

/-- An externally observable effect of a script run: a file written to the
filesystem, the explicit `browser.close()` on the success path, or the
teardown performed when the `with sync_playwright()` block is exited. -/
inductive Event where
  | writeFile (path : String)
  | closeBrowser
  | releaseCtx
deriving Repr, DecidableEq

/-- The files a single statement writes: only `page.screenshot` writes a
file (its image artifact); every other statement writes nothing. -/
def stepWrites : Step → List String
  | .screenshot p _ => [p]
  | _ => []

/-- Result of one script run: the events it emitted, and `none` on normal
completion or `some (i, s)` when statement `s` at index `i` raised. -/
structure RunResult where
  events : List Event
  failed : Option (Nat × Step)
deriving Repr, DecidableEq

/-- Executes the statements of a script body in order, starting at index
`i0`, with the outcome of each browser interaction abstracted by the oracle
`ok` (whether the locator resolves and the asserted condition is reached
within the timeout). As in the Python source, the first failing statement
raises: nothing after it runs, and its index and statement are reported. -/
def runSteps (ok : Nat → Step → Bool) : Nat → List Step → List Event × Option (Nat × Step)
  | _, [] => ([], none)
  | i0, s :: rest =>
    if ok i0 s then
      let r := runSteps ok (i0 + 1) rest
      ((stepWrites s).map Event.writeFile ++ r.1, r.2)
    else
      ([], some (i0, s))

/-- A full run of one script. The body executes under `runSteps`; on normal
completion the source's `browser.close()` runs. Modelled from the spec: the
enclosing `with sync_playwright()` context manager releases the browsing
context on every exit path, normal or raising, so `releaseCtx` is emitted
unconditionally. -/
def runScript (ok : Nat → Step → Bool) (sc : Script) : RunResult :=
  let r := runSteps ok 0 sc.steps
  { events := r.1 ++ (if r.2 = none then [Event.closeBrowser] else []) ++ [Event.releaseCtx]
    failed := r.2 }

/-- The file paths written in a trace. -/
def writesOf (evs : List Event) : List String :=
  evs.filterMap fun e =>
    match e with
    | .writeFile p => some p
    | _ => none

/-- Every statement except possibly the last writes no file. This holds of
each script: the screenshot is always the final statement of the body. -/
def noWritesBeforeLast (l : List Step) : Bool :=
  l.dropLast.all fun s => (stepWrites s).isEmpty

/-- The expected artifact path of a script, built from its identifier. -/
def artifactPath (sc : Script) : String :=
  "jules-scratch/verification/" ++ sc.id ++ ".png"

/-- The artifact paths a list of statements captures to, in order. -/
def capturePaths (l : List Step) : List String :=
  l.filterMap fun s =>
    match s with
    | .screenshot p _ => some p
    | _ => none

theorem runSteps_fail_char (ok : Nat → Step → Bool) :
    ∀ (l : List Step) (i0 i : Nat) (st : Step),
      (runSteps ok i0 l).2 = some (i, st) →
      ∃ k, i = i0 + k ∧ l.get? k = some st ∧ ok i st = false ∧
        ∀ j, j < k → ∃ s, l.get? j = some s ∧ ok (i0 + j) s = true := by
  intro l
  induction l with
  | nil => intro i0 i st h; simp [runSteps] at h
  | cons s rest ih =>
    intro i0 i st h
    by_cases hok : ok i0 s
    · rw [runSteps, if_pos hok] at h
      obtain ⟨k, hk, hget, hfalse, hpre⟩ := ih (i0 + 1) i st h
      refine ⟨k + 1, by omega, by simpa using hget, hfalse, ?_⟩
      intro j hj
      cases j with
      | zero => exact ⟨s, rfl, hok⟩
      | succ j' =>
        obtain ⟨s', hs', hoks'⟩ := hpre j' (by omega)
        exact ⟨s', by simpa using hs', by
          have : i0 + (j' + 1) = i0 + 1 + j' := by omega
          rw [this]; exact hoks'⟩
    · rw [runSteps, if_neg hok] at h
      simp only [Option.some.injEq, Prod.mk.injEq] at h
      refine ⟨0, by omega, ?_, ?_, ?_⟩
      · simp [← h.2]
      · rw [← h.1, ← h.2]; simpa using hok
      · intro j hj; omega

theorem writesOf_append (a b : List Event) :
    writesOf (a ++ b) = writesOf a ++ writesOf b := by
  simp [writesOf, List.filterMap_append]

theorem writesOf_map_writeFile (ps : List String) :
    writesOf (ps.map Event.writeFile) = ps := by
  induction ps with
  | nil => rfl
  | cons p ps ih => simpa [writesOf, List.filterMap_cons] using ih

theorem capturePaths_cons (s : Step) (l : List Step) :
    capturePaths (s :: l) = stepWrites s ++ capturePaths l := by
  cases s <;> rfl

theorem runSteps_fail_no_writes (ok : Nat → Step → Bool) :
    ∀ (l : List Step) (i0 : Nat), noWritesBeforeLast l = true →
      (runSteps ok i0 l).2 ≠ none →
      writesOf (runSteps ok i0 l).1 = [] := by
  intro l
  induction l with
  | nil => intro i0 _ hne; simp [runSteps] at hne
  | cons s rest ih =>
    intro i0 hnw hne
    by_cases hok : ok i0 s
    · rw [runSteps, if_pos hok] at hne ⊢
      simp only at hne ⊢
      cases rest with
      | nil => simp [runSteps] at hne
      | cons t rest' =>
        have hnw' : noWritesBeforeLast (t :: rest') = true := by
          simp only [noWritesBeforeLast, List.dropLast, List.all_cons,
            Bool.and_eq_true] at hnw
          exact hnw.2
        have hs : stepWrites s = [] := by
          simp only [noWritesBeforeLast, List.dropLast, List.all_cons,
            Bool.and_eq_true] at hnw
          exact List.isEmpty_iff.mp hnw.1
        rw [hs]
        simpa using ih (i0 + 1) hnw' hne
    · rw [runSteps, if_neg hok]
      rfl

theorem runSteps_all_ok (ok : Nat → Step → Bool) (h : ∀ i s, ok i s = true) :
    ∀ (l : List Step) (i0 : Nat),
      runSteps ok i0 l = ((capturePaths l).map Event.writeFile, none) := by
  intro l
  induction l with
  | nil => intro i0; rfl
  | cons s rest ih =>
    intro i0
    rw [runSteps, if_pos (h i0 s), ih (i0 + 1), capturePaths_cons]
    simp [stepWrites, capturePaths]

/-- C1: if any step of a scenario fails, the scenario aborts at that step
(all earlier steps succeeded, the failing step is identified), no artifact
file is written, and the browsing context is released on the error exit
path just as on the success path. -/
theorem failed_scenario_aborts_releases_writes_nothing :
    ∀ sc ∈ allScripts, ∀ (ok : Nat → Step → Bool),
      Event.releaseCtx ∈ (runScript ok sc).events ∧
      ∀ i st, (runScript ok sc).failed = some (i, st) →
        writesOf (runScript ok sc).events = [] ∧
        sc.steps.get? i = some st ∧ ok i st = false ∧
        ∀ j, j < i → ∃ s, sc.steps.get? j = some s ∧ ok j s = true := by
  intro sc hsc ok
  have hnw : noWritesBeforeLast sc.steps = true := by
    have hall : allScripts.all (fun sc => noWritesBeforeLast sc.steps) = true := by decide
    exact List.all_eq_true.mp hall sc hsc
  constructor
  · simp [runScript]
  · intro i st hfail
    have hfail' : (runSteps ok 0 sc.steps).2 = some (i, st) := hfail
    obtain ⟨k, hk, hget, hfalse, hpre⟩ := runSteps_fail_char ok sc.steps 0 i st hfail'
    have hk0 : i = k := by omega
    subst hk0
    refine ⟨?_, hget, hfalse, ?_⟩
    · have hw : writesOf (runSteps ok 0 sc.steps).1 = [] :=
        runSteps_fail_no_writes ok sc.steps 0 hnw (by rw [hfail']; simp)
      have hev : (runScript ok sc).events =
          (runSteps ok 0 sc.steps).1 ++
            ((if (runSteps ok 0 sc.steps).2 = none then [Event.closeBrowser] else []) ++
              [Event.releaseCtx]) := by
        simp [runScript, List.append_assoc]
      rw [hev, writesOf_append, hw, writesOf_append, hfail']
      simp [writesOf]
    · intro j hj
      obtain ⟨s, hs, hoks⟩ := hpre j hj
      exact ⟨s, hs, by simpa using hoks⟩

theorem failed_scenario_aborts_releases_writes_nothing_witness :
    scriptComponents ∈ allScripts ∧
    Event.releaseCtx ∈ (runScript (fun _ _ => false) scriptComponents).events ∧
    writesOf (runScript (fun _ _ => false) scriptComponents).events = [] := by
  have h := failed_scenario_aborts_releases_writes_nothing scriptComponents
    (by decide) (fun _ _ => false)
  exact ⟨by decide, h.1, (h.2 0 .nav (by decide)).1⟩

/-- C4: if all steps of a scenario succeed, exactly one artifact file is
produced, at the path named after the scenario identifier, and the only
other effects are releasing the browser resources — no other persistent
state is touched. -/
theorem successful_scenario_writes_exactly_one_artifact :
    ∀ sc ∈ allScripts, ∀ (ok : Nat → Step → Bool), (∀ i s, ok i s = true) →
      (runScript ok sc).failed = none ∧
      (runScript ok sc).events =
        [Event.writeFile (artifactPath sc), Event.closeBrowser, Event.releaseCtx] := by
  intro sc hsc ok hok
  have hcap : capturePaths sc.steps = [artifactPath sc] := by
    have hall : allScripts.all
        (fun sc => capturePaths sc.steps == [artifactPath sc]) = true := by decide
    exact beq_iff_eq.mp (List.all_eq_true.mp hall sc hsc)
  have hrun := runSteps_all_ok ok hok sc.steps 0
  constructor
  · simp [runScript, hrun]
  · simp [runScript, hrun, hcap]

theorem successful_scenario_writes_exactly_one_artifact_witness :
    scriptPageStructure ∈ allScripts ∧
    (runScript (fun _ _ => true) scriptPageStructure).failed = none ∧
    (runScript (fun _ _ => true) scriptPageStructure).events =
      [Event.writeFile (artifactPath scriptPageStructure),
       Event.closeBrowser, Event.releaseCtx] := by
  have h := successful_scenario_writes_exactly_one_artifact scriptPageStructure
    (by decide) (fun _ _ => true) (fun _ _ => rfl)
  exact ⟨by decide, h.1, h.2⟩

/-- A process-level diagnostic: the script file and the failing statement. -/
structure Diag where
  file : String
  stepIndex : Nat
  step : Step
deriving Repr, DecidableEq

/-- Modelled from the spec: the interpreter exits with code 0 when the
script body returns normally, and with a non-zero code and a traceback
naming the script file and the failing statement when an uncaught
exception propagates out of the body. -/
def processRun (ok : Nat → Step → Bool) (sc : Script) : Nat × Option Diag :=
  match (runScript ok sc).failed with
  | none => (0, none)
  | some (i, st) => (1, some ⟨sc.file, i, st⟩)

/-- C7: a script invocation exits with the success code exactly when every
step completes; on any failure it exits non-zero with a diagnostic naming
the script and the failing step, which is the first step to fail. -/
theorem process_exit_reflects_scenario_outcome :
    ∀ sc ∈ allScripts, ∀ (ok : Nat → Step → Bool),
      ((runScript ok sc).failed = none → processRun ok sc = (0, none)) ∧
      ∀ i st, (runScript ok sc).failed = some (i, st) →
        (processRun ok sc).1 ≠ 0 ∧
        (processRun ok sc).2 = some ⟨sc.file, i, st⟩ ∧
        sc.steps.get? i = some st ∧ ok i st = false ∧
        ∀ j, j < i → ∃ s, sc.steps.get? j = some s ∧ ok j s = true := by
  intro sc _hsc ok
  constructor
  · intro hnone; simp [processRun, hnone]
  · intro i st hfail
    have hfail' : (runSteps ok 0 sc.steps).2 = some (i, st) := hfail
    obtain ⟨k, hk, hget, hfalse, hpre⟩ := runSteps_fail_char ok sc.steps 0 i st hfail'
    have hk0 : i = k := by omega
    subst hk0
    refine ⟨by simp [processRun, hfail], by simp [processRun, hfail], hget, hfalse, ?_⟩
    intro j hj
    obtain ⟨s, hs, hoks⟩ := hpre j hj
    exact ⟨s, hs, by simpa using hoks⟩

theorem process_exit_reflects_scenario_outcome_witness :
    scriptAllComponents ∈ allScripts ∧
    processRun (fun _ _ => true) scriptAllComponents = (0, none) := by
  have h := process_exit_reflects_scenario_outcome scriptAllComponents
    (by decide) (fun _ _ => true)
  exact ⟨by decide, h.1 (by decide)⟩

/-- C2 counterexample: `verify_full_library_final.py` and
`verify_full_library_final_v3.py` are distinct scenarios, yet both write
their artifact to `jules-scratch/verification/verification_final.png`. -/
theorem artifact_path_collision_across_run :
    scriptFullLibraryFinal ∈ allScripts ∧
    scriptFullLibraryFinalV3 ∈ allScripts ∧
    scriptFullLibraryFinal ≠ scriptFullLibraryFinalV3 ∧
    capturePaths scriptFullLibraryFinal.steps =
      capturePaths scriptFullLibraryFinalV3.steps ∧
    capturePaths scriptFullLibraryFinal.steps =
      ["jules-scratch/verification/verification_final.png"] := by
  decide

/-- C2 (amended): in a run of all nine scripts, any two distinct scripts
writing a common artifact path are both full-library variants (scenario
identifier `verification_final`), and the shared path is
`jules-scratch/verification/verification_final.png`; all other artifact
paths are unique. -/
theorem artifact_paths_unique_outside_full_library_variants :
    ∀ a ∈ allScripts, ∀ b ∈ allScripts, a ≠ b →
      ∀ p, p ∈ capturePaths a.steps → p ∈ capturePaths b.steps →
        a.id = "verification_final" ∧ b.id = "verification_final" ∧
        p = "jules-scratch/verification/verification_final.png" := by
  decide

theorem artifact_paths_unique_outside_full_library_variants_witness :
    scriptFullLibrary ∈ allScripts ∧ scriptFullLibraryFinalV2 ∈ allScripts ∧
    scriptFullLibrary ≠ scriptFullLibraryFinalV2 ∧
    "jules-scratch/verification/verification_final.png" ∈
      capturePaths scriptFullLibrary.steps ∧
    "jules-scratch/verification/verification_final.png" ∈
      capturePaths scriptFullLibraryFinalV2.steps ∧
    scriptFullLibrary.id = "verification_final" := by
  refine ⟨by decide, by decide, by decide, by decide, by decide, ?_⟩
  exact (artifact_paths_unique_outside_full_library_variants scriptFullLibrary
    (by decide) scriptFullLibraryFinalV2 (by decide) (by decide)
    "jules-scratch/verification/verification_final.png" (by decide) (by decide)).1

/-- A screenshot capture statement. -/
def isCapture : Step → Bool
  | .screenshot _ _ => true
  | _ => false

/-- A fixed-duration wait statement. -/
def isWaitStep : Step → Bool
  | .waitMs _ => true
  | _ => false

/-- A statement that polls an observable DOM predicate (visibility or a
computed CSS property). -/
def isPollingAssert : Step → Bool
  | .assertVisible _ => true
  | .assertNotVisible _ => true
  | .assertCss _ _ _ => true
  | _ => false

/-- Every fixed wait in the statement list is immediately followed by the
screenshot capture (settling before the artifact is taken). -/
def waitsOnlyBeforeCapture : List Step → Bool
  | [] => true
  | [s] => !isWaitStep s
  | s :: t :: rest => (!isWaitStep s || isCapture t) && waitsOnlyBeforeCapture (t :: rest)

/-- Some fixed wait is immediately followed by a polling assertion: the
wait stands in for lengthening that poll on an observable DOM predicate. -/
def waitStandsForPollable : List Step → Bool
  | [] => false
  | [_] => false
  | s :: t :: rest => (isWaitStep s && isPollingAssert t) || waitStandsForPollable (t :: rest)

/-- C3 counterexample: in `verify_full_library_final_v2.py` the fixed
200 ms wait at index 9 is immediately followed by a polling visibility
assertion on the fading tooltip — the awaited condition (the CSS fade
transition having finished) is an observable DOM predicate that could be
polled instead, and v3 indeed polls it via `to_have_css("opacity", "0")`. -/
theorem fixed_wait_stands_for_pollable_condition :
    scriptFullLibraryFinalV2 ∈ allScripts ∧
    scriptFullLibraryFinalV2.steps.get? 9 = some (.waitMs 200) ∧
    scriptFullLibraryFinalV2.steps.get? 10 =
      some (.assertNotVisible (.text "This is a tooltip!")) ∧
    waitStandsForPollable scriptFullLibraryFinalV2.steps = true ∧
    (.assertCss (.text "This is a tooltip!") "opacity" "0") ∈
      scriptFullLibraryFinalV3.steps := by
  decide

/-- C3 (amended): in every script except `verify_full_library_final_v2.py`,
each fixed-duration wait occurs immediately before the screenshot capture
(settling before the artifact is taken, with no further DOM assertion);
v2 additionally inserts two 200 ms fixed waits in place of the pollable
CSS-transition condition, which v3 replaces with AssertCSSProperty
polling. -/
theorem fixed_waits_only_before_capture_outside_v2 :
    ∀ sc ∈ allScripts, sc ≠ scriptFullLibraryFinalV2 →
      waitsOnlyBeforeCapture sc.steps = true := by
  decide

theorem fixed_waits_only_before_capture_outside_v2_witness :
    scriptComponents ∈ allScripts ∧ scriptComponents ≠ scriptFullLibraryFinalV2 ∧
    waitsOnlyBeforeCapture scriptComponents.steps = true :=
  ⟨by decide, by decide,
    fixed_waits_only_before_capture_outside_v2 scriptComponents (by decide) (by decide)⟩

/-- A document under test, abstracted over its state type `σ`. Modelled
from the spec: the document is an external collaborator exposing elements
addressable by locators; assertions read computed state, actions may change
state or fail. -/
structure DomDoc (σ : Type) where
  isVisible : σ → Locator → Bool
  cssValue : σ → Locator → String → String
  doClick : σ → Locator → Option σ
  doHover : σ → Locator → Option σ

/-- Modelled from the spec: one step executed against the current document
state. Visibility and CSS assertions succeed exactly when the polled
predicate holds of the current state and never change it; actions produce
the next state or fail; navigation, viewport, waits and captures leave the
document state unchanged. `none` is a failed step. -/
def execStep {σ : Type} (d : DomDoc σ) (st : σ) : Step → Option σ
  | .nav => some st
  | .setViewport _ _ => some st
  | .click l => d.doClick st l
  | .hover l => d.doHover st l
  | .assertVisible l => if d.isVisible st l then some st else none
  | .assertNotVisible l => if d.isVisible st l then none else some st
  | .assertCss l p v => if d.cssValue st l p = v then some st else none
  | .waitMs _ => some st
  | .screenshot _ _ => some st

/-- Executes steps in order against the document, aborting on the first
failing step. -/
def execSteps {σ : Type} (d : DomDoc σ) (st : σ) : List Step → Option σ
  | [] => some st
  | s :: rest =>
    match execStep d st s with
    | none => none
    | some st2 => execSteps d st2 rest

/-- Modelled from the spec: the concrete dialog document — it contains a
button labeled "Open Dialog", an element with role "dialog" that is
initially hidden, and a button labeled "Close" scoped inside the dialog.
The state is the dialog's visibility: clicking "Open Dialog" shows the
dialog, clicking the scoped "Close" button (possible only while the dialog
is visible) hides it, and elements scoped inside the dialog are visible
exactly when the dialog is. -/
def dialogDoc : DomDoc Bool :=
  { isVisible := fun st l =>
      match l with
      | .role "dialog" _ _ => st
      | .subRole (.role "dialog" _ _) _ _ _ => st
      | _ => true
    cssValue := fun _ _ _ => "0"
    doClick := fun st l =>
      match l with
      | .role "button" (some "Open Dialog") _ => some true
      | .subRole (.role "dialog" _ _) "button" (some "Close") _ =>
          if st then some false else none
      | _ => some st
    doHover := fun st _ => some st }

/-- C5: the dialog scenario (steps 2–5 of `verify_full_library_final_v3.py`)
run against the dialog document with the dialog initially hidden: clicking
"Open Dialog" makes the dialog visible, the visibility assertion passes,
clicking the "Close" button scoped inside the dialog hides it, and the
scenario completes without error with the dialog absent from the visible
tree (final state `false`). -/
theorem dialog_scenario_completes_with_dialog_hidden :
    (scriptFullLibraryFinalV3.steps.drop 2).take 4 =
      [ .click (.role "button" (some "Open Dialog") false)
      , .assertVisible (.role "dialog" none false)
      , .click (.subRole (.role "dialog" none false) "button" (some "Close") false)
      , .assertNotVisible (.role "dialog" none false) ] ∧
    execSteps dialogDoc false ((scriptFullLibraryFinalV3.steps.drop 2).take 4) =
      some false := by
  decide

/-- C9: AssertCSSProperty is idempotent — in any document state where the
asserted property already equals the expected value, performing the
assertion any number of additional times succeeds and leaves the document
state unchanged. -/
theorem assert_css_property_idempotent {σ : Type} (d : DomDoc σ) (st : σ)
    (l : Locator) (p v : String) (n : Nat) (h : d.cssValue st l p = v) :
    execSteps d st (List.replicate n (.assertCss l p v)) = some st := by
  induction n with
  | zero => rfl
  | succ n ih => simp [List.replicate_succ, execSteps, execStep, h, ih]

theorem assert_css_property_idempotent_witness :
    dialogDoc.cssValue false (.css ".select-popover") "opacity" = "0" ∧
    execSteps dialogDoc false
      (List.replicate 3 (.assertCss (.css ".select-popover") "opacity" "0")) =
      some false :=
  ⟨rfl, assert_css_property_idempotent dialogDoc false (.css ".select-popover")
    "opacity" "0" 3 rfl⟩

/-- Modelled from the spec: `AssertCSSProperty` polls the element's
computed style property at successive instants while fuel remains,
returning the first instant at which the computed value equals the
expected string, or `none` when the timeout elapses first. `sample i` is
the computed value of the property at poll instant `i`. -/
def pollCssFrom (sample : Nat → String) (expected : String) : Nat → Nat → Option Nat
  | _, 0 => none
  | t, fuel + 1 =>
    if sample t = expected then some t else pollCssFrom sample expected (t + 1) fuel

/-- Polling from instant 0 with a timeout of `timeout` poll instants. -/
def pollCss (sample : Nat → String) (expected : String) (timeout : Nat) : Option Nat :=
  pollCssFrom sample expected 0 timeout

theorem pollCssFrom_some_char (sample : Nat → String) (v : String) :
    ∀ (fuel t u : Nat), pollCssFrom sample v t fuel = some u →
      sample u = v ∧ t ≤ u ∧ u < t + fuel ∧
        ∀ j, t ≤ j → j < u → sample j ≠ v := by
  intro fuel
  induction fuel with
  | zero => intro t u h; simp [pollCssFrom] at h
  | succ fuel ih =>
    intro t u h
    rw [pollCssFrom] at h
    by_cases hs : sample t = v
    · rw [if_pos hs] at h
      obtain rfl : t = u := by simpa using h
      exact ⟨hs, Nat.le_refl t, by omega, fun j hj1 hj2 => by omega⟩
    · rw [if_neg hs] at h
      obtain ⟨h1, h2, h3, h4⟩ := ih (t + 1) u h
      refine ⟨h1, by omega, by omega, ?_⟩
      intro j hj1 hj2
      rcases Nat.eq_or_lt_of_le hj1 with rfl | hlt
      · exact hs
      · exact h4 j (by omega) hj2

theorem pollCssFrom_none_iff (sample : Nat → String) (v : String) :
    ∀ (fuel t : Nat), pollCssFrom sample v t fuel = none ↔
      ∀ u, t ≤ u → u < t + fuel → sample u ≠ v := by
  intro fuel
  induction fuel with
  | zero =>
    intro t
    constructor
    · intro _ u h1 h2; omega
    · intro _; rfl
  | succ fuel ih =>
    intro t
    rw [pollCssFrom]
    by_cases hs : sample t = v
    · rw [if_pos hs]
      constructor
      · intro h; exact absurd h (by simp)
      · intro h; exact absurd hs (h t (Nat.le_refl t) (by omega))
    · rw [if_neg hs, ih (t + 1)]
      constructor
      · intro h u hu1 hu2
        rcases Nat.eq_or_lt_of_le hu1 with rfl | hlt
        · exact hs
        · exact h u (by omega) (by omega)
      · intro h u hu1 hu2
        exact h u (by omega) (by omega)

/-- C6: AssertCSSProperty polling semantics — the poll returns the first
instant within the timeout at which the computed value of the property
equals the expected string, and it fails (times out) exactly when equality
is never reached within the timeout. The scripts use exactly this
assertion: `verify_full_library_final_v3.py` polls `opacity = "0"` on the
tooltip text and on the select popover. -/
theorem assert_css_property_polls_until_equal (sample : Nat → String) (v : String)
    (T : Nat) :
    (∀ u, pollCss sample v T = some u →
      sample u = v ∧ u < T ∧ ∀ j, j < u → sample j ≠ v) ∧
    (pollCss sample v T = none ↔ ∀ t, t < T → sample t ≠ v) ∧
    (.assertCss (.text "This is a tooltip!") "opacity" "0") ∈
      scriptFullLibraryFinalV3.steps ∧
    (.assertCss (.css ".select-popover") "opacity" "0") ∈
      scriptFullLibraryFinalV3.steps := by
  refine ⟨?_, ?_, by decide, by decide⟩
  · intro u h
    obtain ⟨h1, h2, h3, h4⟩ := pollCssFrom_some_char sample v T 0 u h
    exact ⟨h1, by omega, fun j hj => h4 j (by omega) hj⟩
  · rw [pollCss, pollCssFrom_none_iff]
    constructor
    · intro h t ht; exact h t (by omega) (by omega)
    · intro h t ht1 ht2; exact h t (by omega)

theorem assert_css_property_polls_until_equal_witness :
    pollCss (fun t => if t < 2 then "1" else "0") "0" 5 = some 2 ∧
    (fun t => if t < 2 then "1" else "0") 2 = "0" ∧ 2 < 5 ∧
    (1 : Nat) < 2 ∧ (fun t => if t < 2 then "1" else "0") 1 ≠ "0" := by
  have h := (assert_css_property_polls_until_equal
    (fun t => if t < 2 then "1" else "0") "0" 5).1 2 (by decide)
  exact ⟨by decide, h.1, h.2.1, by decide, h.2.2 1 (by decide)⟩

/-- The artifact path a statement captures to, if it is a capture. -/
def captureTarget : Step → Option String
  | .screenshot p _ => some p
  | _ => none

/-- Pointwise update of a filesystem, keyed by path. -/
def fsUpdate (fs : String → Option (List Step)) (k : String) (c : List Step) :
    String → Option (List Step) :=
  fun p => if p = k then some c else fs p

/-- Modelled from the spec: an artifact is a rendered image of the document
at a point in time. The rendering is a function of the interactions
performed on the freshly navigated document up to the capture, so artifact
content is represented by that interaction history (the statements executed
before the capture). `runFsAux done l fs` runs the remaining statements `l`
(with `done` already executed) in the scenario's own isolated browsing
context, threading the shared filesystem `fs`: each capture overwrites its
path with the rendering of the current document state. -/
def runFsAux : List Step → List Step → (String → Option (List Step)) →
    String → Option (List Step)
  | _, [], fs => fs
  | done, s :: rest, fs =>
    match captureTarget s with
    | some q => runFsAux (done ++ [s]) rest (fsUpdate fs q done)
    | none => runFsAux (done ++ [s]) rest fs

/-- A full run of one script against the shared filesystem. Each script
launches its own browser and opens a fresh page, so the document state
starts from scratch: nothing of a previously run scenario is visible to
this one except the filesystem. -/
def runFs (sc : Script) (fs : String → Option (List Step)) :
    String → Option (List Step) :=
  runFsAux [] sc.steps fs

/-- The content of the last capture to path `p` among the remaining
statements, given the statements already executed. -/
def lastCapture : List Step → List Step → String → Option (List Step)
  | _, [], _ => none
  | done, s :: rest, p =>
    match captureTarget s with
    | some q =>
      match lastCapture (done ++ [s]) rest p with
      | some c => some c
      | none => if p = q then some done else none
    | none => lastCapture (done ++ [s]) rest p

theorem runFsAux_of_lastCapture_none (p : String) :
    ∀ (l done : List Step) (fs : String → Option (List Step)),
      lastCapture done l p = none → runFsAux done l fs p = fs p := by
  intro l
  induction l with
  | nil => intro done fs _; rfl
  | cons s rest ih =>
    intro done fs hlc
    rw [lastCapture] at hlc
    rw [runFsAux]
    cases hct : captureTarget s with
    | none =>
      rw [hct] at hlc
      simp only [hct]
      exact ih (done ++ [s]) fs hlc
    | some q =>
      rw [hct] at hlc
      simp only [hct]
      cases hrec : lastCapture (done ++ [s]) rest p with
      | some c => rw [hrec] at hlc; simp at hlc
      | none =>
        rw [hrec] at hlc
        simp only at hlc
        have hpq : p ≠ q := by
          intro he; rw [if_pos he] at hlc; exact Option.noConfusion hlc
        rw [ih (done ++ [s]) (fsUpdate fs q done) hrec, fsUpdate, if_neg hpq]

theorem runFsAux_of_lastCapture_some (p : String) :
    ∀ (l done : List Step) (fs : String → Option (List Step)) (c : List Step),
      lastCapture done l p = some c → runFsAux done l fs p = some c := by
  intro l
  induction l with
  | nil => intro done fs c h; simp [lastCapture] at h
  | cons s rest ih =>
    intro done fs c hlc
    rw [lastCapture] at hlc
    rw [runFsAux]
    cases hct : captureTarget s with
    | none =>
      rw [hct] at hlc
      simp only [hct]
      exact ih (done ++ [s]) fs c hlc
    | some q =>
      rw [hct] at hlc
      simp only [hct]
      cases hrec : lastCapture (done ++ [s]) rest p with
      | some c2 =>
        rw [hrec] at hlc
        simp only [Option.some.injEq] at hlc
        subst hlc
        exact ih (done ++ [s]) (fsUpdate fs q done) c2 hrec
      | none =>
        rw [hrec] at hlc
        simp only at hlc
        have hpq : p = q := by
          by_contra hne
          rw [if_neg hne] at hlc
          exact Option.noConfusion hlc
        rw [if_pos hpq] at hlc
        rw [runFsAux_of_lastCapture_none p rest (done ++ [s]) (fsUpdate fs q done) hrec,
          fsUpdate, if_pos hpq]
        exact hlc

theorem mem_capturePaths_cons (p : String) (s : Step) (l : List Step) :
    p ∈ capturePaths (s :: l) ↔ captureTarget s = some p ∨ p ∈ capturePaths l := by
  cases s <;> simp [capturePaths_cons, stepWrites, captureTarget, eq_comm]

theorem lastCapture_eq_none_of_not_mem (p : String) :
    ∀ (l done : List Step), p ∉ capturePaths l → lastCapture done l p = none := by
  intro l
  induction l with
  | nil => intro done _; rfl
  | cons s rest ih =>
    intro done hnm
    rw [mem_capturePaths_cons] at hnm
    push_neg at hnm
    rw [lastCapture]
    cases hct : captureTarget s with
    | none => simp only; exact ih (done ++ [s]) hnm.2
    | some q =>
      simp only
      rw [ih (done ++ [s]) hnm.2]
      have hpq : p ≠ q := by
        intro he; exact hnm.1 (by rw [hct, he])
      simp only [if_neg hpq]

/-- C8 counterexample: `verify_full_library_final.py` and
`verify_full_library_final_v3.py` both write
`jules-scratch/verification/verification_final.png`, and their captures
render different interaction histories; hence running one after the other
leaves a different artifact at that path than the opposite order — the
final filesystem state depends on the order. -/
theorem scenario_order_changes_shared_artifact :
    scriptFullLibraryFinal ∈ allScripts ∧
    scriptFullLibraryFinalV3 ∈ allScripts ∧
    scriptFullLibraryFinal ≠ scriptFullLibraryFinalV3 ∧
    runFs scriptFullLibraryFinalV3 (runFs scriptFullLibraryFinal (fun _ => none))
        "jules-scratch/verification/verification_final.png" ≠
      runFs scriptFullLibraryFinal (runFs scriptFullLibraryFinalV3 (fun _ => none))
        "jules-scratch/verification/verification_final.png" := by
  decide

/-- C8 (amended): for sibling scenarios run in isolated browsing contexts
whose artifact paths are disjoint, running A then B leaves the same
filesystem as running B then A — each scenario's locator resolution and
artifact content are functions of that scenario alone. For the four
full-library variants, which share one artifact path, the shared file is
the last writer's, so the final state is order-dependent for those pairs. -/
theorem scenario_order_independent_for_disjoint_paths :
    ∀ a ∈ allScripts, ∀ b ∈ allScripts,
      (∀ p ∈ capturePaths a.steps, p ∉ capturePaths b.steps) →
      ∀ (fs : String → Option (List Step)) (p : String),
        runFs b (runFs a fs) p = runFs a (runFs b fs) p := by
  intro a _ha b _hb hdisj fs p
  simp only [runFs]
  by_cases hpb : p ∈ capturePaths b.steps
  · have hpa : p ∉ capturePaths a.steps := fun hpa => hdisj p hpa hpb
    have hlcA : lastCapture [] a.steps p = none :=
      lastCapture_eq_none_of_not_mem p a.steps [] hpa
    rw [runFsAux_of_lastCapture_none p a.steps [] (runFsAux [] b.steps fs) hlcA]
    cases hlcB : lastCapture [] b.steps p with
    | some c =>
      rw [runFsAux_of_lastCapture_some p b.steps [] _ c hlcB,
        runFsAux_of_lastCapture_some p b.steps [] _ c hlcB]
    | none =>
      rw [runFsAux_of_lastCapture_none p b.steps [] _ hlcB,
        runFsAux_of_lastCapture_none p b.steps [] _ hlcB,
        runFsAux_of_lastCapture_none p a.steps [] _ hlcA]
  · have hlcB : lastCapture [] b.steps p = none :=
      lastCapture_eq_none_of_not_mem p b.steps [] hpb
    rw [runFsAux_of_lastCapture_none p b.steps [] (runFsAux [] a.steps fs) hlcB]
    cases hlcA : lastCapture [] a.steps p with
    | some c =>
      rw [runFsAux_of_lastCapture_some p a.steps [] _ c hlcA,
        runFsAux_of_lastCapture_some p a.steps [] _ c hlcA]
    | none =>
      rw [runFsAux_of_lastCapture_none p a.steps [] _ hlcA,
        runFsAux_of_lastCapture_none p a.steps [] _ hlcA,
        runFsAux_of_lastCapture_none p b.steps [] _ hlcB]

theorem scenario_order_independent_for_disjoint_paths_witness :
    scriptAllComponents ∈ allScripts ∧ scriptPageStructure ∈ allScripts ∧
    (∀ p ∈ capturePaths scriptAllComponents.steps,
      p ∉ capturePaths scriptPageStructure.steps) ∧
    runFs scriptPageStructure (runFs scriptAllComponents (fun _ => none))
        "jules-scratch/verification/verification_structure.png" =
      runFs scriptAllComponents (runFs scriptPageStructure (fun _ => none))
        "jules-scratch/verification/verification_structure.png" := by
  refine ⟨by decide, by decide, by decide, ?_⟩
  exact scenario_order_independent_for_disjoint_paths scriptAllComponents (by decide)
    scriptPageStructure (by decide) (by decide) (fun _ => none)
    "jules-scratch/verification/verification_structure.png"

/-- Modelled from the spec (POSIX path semantics, `os.path.abspath`): a
directory is a list of components, and making a relative path absolute
prefixes the current working directory's components. -/
def absPath (cwd rel : List String) : List String := cwd ++ rel

/-- Splits a character list into the groups separated by `sep`. -/
def splitOnChar (sep : Char) : List Char → List (List Char)
  | [] => [[]]
  | ch :: rest =>
    let r := splitOnChar sep rest
    if ch = sep then [] :: r
    else
      match r with
      | [] => [[ch]]
      | g :: gs => (ch :: g) :: gs

/-- The components of a path string, i.e. the groups between slashes. -/
def pathComponents (s : String) : List String :=
  (splitOnChar (Char.ofNat 47) s.data).map fun l => String.mk l

/-- Whether a path string is absolute (begins with a slash). -/
def isAbsolute (s : String) : Bool :=
  match s.data with
  | c :: _ => c = Char.ofNat 47
  | [] => false

/-- Modelled from the spec: the navigation URL each script builds —
`file://` followed by the document path made absolute from the current
working directory. -/
def gotoUrl (cwd : List String) (sc : Script) : String :=
  "file://" ++ String.intercalate "/" (absPath cwd (pathComponents sc.docRel))

/-- C10: every script passes the relative path
`basecoat-clone-ui/index.html` to `os.path.abspath`, so the document URL is
anchored at the current working directory, and the document resolves to its
actual location (the repository root) only when the script is invoked from
that root; every artifact path is left relative, under
`jules-scratch/verification/`, and so also resolves from the working
directory. -/
theorem paths_resolve_from_working_directory :
    ∀ sc ∈ allScripts,
      (sc.docRel = "basecoat-clone-ui/index.html" ∧
        pathComponents sc.docRel = ["basecoat-clone-ui", "index.html"] ∧
        ∀ p ∈ capturePaths sc.steps,
          isAbsolute p = false ∧
          (pathComponents p).take 2 = ["jules-scratch", "verification"] ∧
          (pathComponents p).length = 3) ∧
      ∀ cwd root : List String,
        absPath cwd (pathComponents sc.docRel) =
          absPath root ["basecoat-clone-ui", "index.html"] →
        cwd = root := by
  intro sc hsc
  have hd : pathComponents sc.docRel = ["basecoat-clone-ui", "index.html"] := by
    have hall : allScripts.all
        (fun sc => pathComponents sc.docRel == ["basecoat-clone-ui", "index.html"]) = true := by
      decide
    exact beq_iff_eq.mp (List.all_eq_true.mp hall sc hsc)
  refine ⟨⟨?_, hd, ?_⟩, ?_⟩
  · have hall : allScripts.all
        (fun sc => sc.docRel == "basecoat-clone-ui/index.html") = true := by decide
    exact beq_iff_eq.mp (List.all_eq_true.mp hall sc hsc)
  · intro p hp
    have hall : allScripts.all (fun sc => (capturePaths sc.steps).all
        (fun p => !isAbsolute p &&
          ((pathComponents p).take 2 == ["jules-scratch", "verification"]) &&
          ((pathComponents p).length == 3))) = true := by decide
    have h1 := List.all_eq_true.mp (List.all_eq_true.mp hall sc hsc) p hp
    simp only [Bool.and_eq_true, beq_iff_eq, Bool.not_eq_true'] at h1
    exact ⟨h1.1.1, h1.1.2, h1.2⟩
  · intro cwd root h
    rw [hd] at h
    exact List.append_cancel_right h

theorem paths_resolve_from_working_directory_witness :
    scriptLayoutComponents ∈ allScripts ∧
    scriptLayoutComponents.docRel = "basecoat-clone-ui/index.html" ∧
    "jules-scratch/verification/verification_layout.png" ∈
      capturePaths scriptLayoutComponents.steps ∧
    isAbsolute "jules-scratch/verification/verification_layout.png" = false := by
  have h := paths_resolve_from_working_directory scriptLayoutComponents (by decide)
  refine ⟨by decide, h.1.1, by decide, ?_⟩
  exact (h.1.2.2 "jules-scratch/verification/verification_layout.png" (by decide)).1
